import Mathlib

/-
  Verification development for the Plank reconciler of the prow repository.

  The repository fragment under inspection ships the reconciler's test file
  (plank/controller_test.go) but not controller.go itself, so the reconciler,
  the admission controller and the duplicate terminator are modelled from the
  specification (spec.md §4.3-§4.5) and validated against the concrete
  expectations recorded in the test file.

  Conventions of the embedding:
  - times and durations are Int (an abstract clock; the Go code uses
    time.Time / time.Duration, which are totally ordered and subtracted the
    same way);
  - Kubernetes API errors relevant to the claims are enumerated inductively;
  - the effects of one reconcile call (status patch, pod create/delete,
    requeue, returned error) are collected in a SyncResult record.
-/

namespace Plank

/-- State of a Job CR (ProwJobStatus.State), from the spec data model (§3). -/
inductive ProwJobState where
  | scheduling
  | triggered
  | pending
  | success
  | failure
  | error
  | aborted
deriving DecidableEq, Repr

/-- Job type (ProwJobSpec.Type), from the spec data model (§3). -/
inductive ProwJobType where
  | periodic
  | presubmit
  | postsubmit
  | batch
deriving DecidableEq, Repr

/-- Pod phase, from the spec data model (§3). -/
inductive PodPhase where
  | podPending
  | podRunning
  | podSucceeded
  | podFailed
  | podUnknown
deriving DecidableEq, Repr

/-- Container status: all the reconciler reads is whether last-termination
info is present (corev1.ContainerStatus.LastTerminationState). -/
structure ContainerStatus where
  hasLastTermination : Bool
deriving DecidableEq, Repr

/-- The worker Pod, restricted to the fields the reconciler reads (§3). -/
structure Pod where
  name : String
  creationTimestamp : Int
  deletionTimestamp : Option Int
  finalizers : List String
  phase : PodPhase
  reason : String
  startTime : Option Int
  initContainerStatuses : List ContainerStatus
  containerStatuses : List ContainerStatus
  buildIDLabel : Option String
  buildIDEnv : Option String
deriving DecidableEq, Repr

/-- ProwJobSpec, restricted to the fields the reconciler reads (§3). -/
structure ProwJobSpec where
  job : String
  jobType : ProwJobType
  cluster : String
  maxConcurrency : Nat
  jobQueueName : String
  errorOnEviction : Bool
  pulls : List Nat
  podPendingTimeout : Option Int
  podRunningTimeout : Option Int
  podUnscheduledTimeout : Option Int
  maxRevivals : Option Nat
deriving DecidableEq, Repr

/-- ProwJobStatus (§3). -/
structure ProwJobStatus where
  state : ProwJobState
  podName : Option String
  buildID : String
  url : String
  startTime : Int
  pendingTime : Option Int
  completionTime : Option Int
  podRevivalCount : Nat
  description : String
deriving DecidableEq, Repr

/-- The Job CR (§3). -/
structure ProwJob where
  name : String
  uid : String
  creationTimestamp : Int
  spec : ProwJobSpec
  status : ProwJobStatus
deriving DecidableEq, Repr

/-- Complete() of a Job CR: its completion time is set. -/
def ProwJob.complete (pj : ProwJob) : Bool :=
  pj.status.completionTime.isSome

/-- A state is terminal iff it is one of Success, Failure, Error, Aborted (§3). -/
def isTerminal : ProwJobState → Bool
  | .success => true
  | .failure => true
  | .error => true
  | .aborted => true
  | _ => false

/-- The controller configuration, restricted to the recognized keys the
claims need (§6): global MaxConcurrency, per-queue capacities, the three
per-category default timeouts, max-revivals, and the URL template (rendered
by an opaque operator-supplied function of the Job CR). -/
structure Config where
  maxConcurrency : Nat
  jobQueueCapacities : String → Option Int
  podPendingTimeout : Int
  podRunningTimeout : Int
  podUnscheduledTimeout : Int
  maxRevivals : Nat
  urlTemplate : ProwJob → String

/-- Effective pod-pending timeout: Job CR decoration override first, then the
global configuration (§4.1). -/
def effPodPendingTimeout (cfg : Config) (pj : ProwJob) : Int :=
  pj.spec.podPendingTimeout.getD cfg.podPendingTimeout

/-- Effective pod-running timeout (§4.1). -/
def effPodRunningTimeout (cfg : Config) (pj : ProwJob) : Int :=
  pj.spec.podRunningTimeout.getD cfg.podRunningTimeout

/-- Effective pod-unscheduled timeout (§4.1). -/
def effPodUnscheduledTimeout (cfg : Config) (pj : ProwJob) : Int :=
  pj.spec.podUnscheduledTimeout.getD cfg.podUnscheduledTimeout

/-- Effective max-revivals: Job CR override first, then the configuration. -/
def effMaxRevivals (cfg : Config) (pj : ProwJob) : Nat :=
  pj.spec.maxRevivals.getD cfg.maxRevivals

/-- The target cluster of a Job CR: the sentinel "default" when the cluster
field is empty (§4.2). -/
def targetCluster (pj : ProwJob) : String :=
  if pj.spec.cluster = "" then "default" else pj.spec.cluster

/-- Modelled from the spec: the stable admission tie-break of §4.3
(controller.go is not under src/, only controller_test.go is). Job a is
older than job b iff its creation timestamp is strictly older, or the
timestamps are equal and a's uid is lexicographically smaller. -/
def isOlderThan (a b : ProwJob) : Bool :=
  decide (a.creationTimestamp < b.creationTimestamp ∨
    (a.creationTimestamp = b.creationTimestamp ∧ a.uid < b.uid))

/-- Modelled from the spec: count of Pending Job CRs with the same job name
as the candidate, the candidate itself excluded by uid (§4.3 items 1 and 4). -/
def pendingPeersByJob (jobs : List ProwJob) (pj : ProwJob) : Nat :=
  jobs.countP fun j =>
    decide (j.uid ≠ pj.uid ∧ j.spec.job = pj.spec.job ∧ j.status.state = .pending)

/-- Modelled from the spec: count of Triggered Job CRs with the same job name
that are older than the candidate under the stable tie-break, the candidate
itself excluded by uid (§4.3 items 1 and 4). -/
def olderTriggeredPeersByJob (jobs : List ProwJob) (pj : ProwJob) : Nat :=
  jobs.countP fun j =>
    decide (j.uid ≠ pj.uid ∧ j.spec.job = pj.spec.job ∧ j.status.state = .triggered ∧
      isOlderThan j pj = true)

/-- Modelled from the spec: the per-job concurrency test of §4.3 item 1,
with the early return on the pending count alone that the spec's
"count (a) ... plus (b) ..." allows. If MaxConcurrency is 0 the test is
skipped (always passes). -/
def canExecutePerJob (jobs : List ProwJob) (pj : ProwJob) : Bool :=
  if pj.spec.maxConcurrency = 0 then true
  else if pj.spec.maxConcurrency ≤ pendingPeersByJob jobs pj then false
  else decide (pendingPeersByJob jobs pj + olderTriggeredPeersByJob jobs pj <
    pj.spec.maxConcurrency)

/-- Modelled from the spec: count of Pending Job CRs in the same queue,
candidate excluded by uid (§4.3 item 2). -/
def pendingPeersByQueue (jobs : List ProwJob) (pj : ProwJob) : Nat :=
  jobs.countP fun j =>
    decide (j.uid ≠ pj.uid ∧ j.spec.jobQueueName = pj.spec.jobQueueName ∧
      j.status.state = .pending)

/-- Modelled from the spec: count of older Triggered Job CRs in the same
queue, candidate excluded by uid (§4.3 item 2, same tie-break as item 1). -/
def olderTriggeredPeersByQueue (jobs : List ProwJob) (pj : ProwJob) : Nat :=
  jobs.countP fun j =>
    decide (j.uid ≠ pj.uid ∧ j.spec.jobQueueName = pj.spec.jobQueueName ∧
      j.status.state = .triggered ∧ isOlderThan j pj = true)

/-- Modelled from the spec: the queue-capacity test of §4.3 item 2. No queue
name: skip. Capacity below zero: pass; zero: reject; positive: pass iff the
pending-plus-older-triggered count in the queue is below the capacity. An
unconfigured queue is unconstrained. -/
def canExecutePerQueue (cfg : Config) (jobs : List ProwJob) (pj : ProwJob) : Bool :=
  if pj.spec.jobQueueName = "" then true
  else
    match cfg.jobQueueCapacities pj.spec.jobQueueName with
    | none => true
    | some capacity =>
      if capacity < 0 then true
      else if capacity = 0 then false
      else decide ((pendingPeersByQueue jobs pj + olderTriggeredPeersByQueue jobs pj : Int) <
        capacity)

/-- Modelled from the spec: the global concurrency test of §4.3 item 3,
applied only when the global MaxConcurrency is strictly positive. -/
def canExecuteGlobal (cfg : Config) (jobs : List ProwJob) : Bool :=
  if cfg.maxConcurrency = 0 then true
  else decide ((jobs.countP fun j => decide (j.status.state = .pending)) <
    cfg.maxConcurrency)

/-- Modelled from the spec: canExecuteConcurrently of §4.3, the conjunction
of the global, per-job and per-queue tests. -/
def canExecuteConcurrently (cfg : Config) (jobs : List ProwJob) (pj : ProwJob) : Bool :=
  canExecuteGlobal cfg jobs && canExecutePerJob jobs pj &&
    canExecutePerQueue cfg jobs pj

/-- Insert a number into a sorted list, keeping it sorted. -/
def insertSorted (n : Nat) : List Nat → List Nat
  | [] => [n]
  | m :: rest => if n ≤ m then n :: m :: rest else m :: insertSorted n rest

/-- Canonical form of a set of pull numbers: sorted with duplicates removed. -/
def pullSet (pulls : List Nat) : List Nat :=
  pulls.dedup.foldr insertSorted []

/-- Modelled from the spec: the duplicate-termination key of §4.4, the pair
(job name, set of pull numbers from refs). -/
def dupKey (pj : ProwJob) : String × List Nat :=
  (pj.spec.job, pullSet pj.spec.pulls)

/-- A Job CR participates in duplicate termination iff it is a presubmit job
that has not yet completed (§4.4). -/
def dupActive (pj : ProwJob) : Bool :=
  pj.spec.jobType = .presubmit && !pj.complete

/-- Modelled from the spec: a participating Job CR is superseded iff some
other participating Job CR with the same key has a strictly newer start
time, i.e. iff it does not have the newest start time of its group (§4.4). -/
def superseded (jobs : List ProwJob) (pj : ProwJob) : Bool :=
  jobs.any fun j =>
    dupActive j && decide (dupKey j = dupKey pj) &&
      decide (pj.status.startTime < j.status.startTime)

/-- Modelled from the spec: driving a duplicate to Aborted with completion
time now and a supersession reason (§4.4). -/
def abortDupe (now : Int) (pj : ProwJob) : ProwJob :=
  { pj with status := { pj.status with
      state := .aborted
      completionTime := some now
      description := "Superseded by newer job run." } }

/-- What one duplicate-terminator call with subject pj does to one store
entry j: j is driven to Aborted iff it shares pj's key, participates
(active presubmit), and is superseded within its group. -/
def terminateStep (now : Int) (jobs : List ProwJob) (pj : ProwJob) (j : ProwJob) :
    ProwJob :=
  if decide (dupKey j = dupKey pj) && dupActive j && superseded jobs j then
    abortDupe now j
  else j

/-- Modelled from the spec: terminateDupes of §4.4, run on a reconcile of
the presubmit Job CR pj over the Job CR store. Every active presubmit Job
CR sharing pj's (job name, pull set) key that does not have the newest
start time of the group is driven to Aborted; everything else is left
untouched. -/
def terminateDupes (now : Int) (jobs : List ProwJob) (pj : ProwJob) : List ProwJob :=
  jobs.map (terminateStep now jobs pj)

/-- The newest start time in the duplicate group of a Job CR, taking the
job's own start time as the base of the fold. -/
def groupNewestStart (jobs : List ProwJob) (pj : ProwJob) : Int :=
  ((jobs.filter fun j => dupActive j && decide (dupKey j = dupKey pj)).map
    fun j => j.status.startTime).foldr max pj.status.startTime

/-- Outcome of the Pod-create call issued for an admitted Triggered Job CR,
restricted to the classes the spec distinguishes (§4.5, §7): success, the
three user-fatal apiserver errors 422 Invalid, 403 Forbidden and 409
Conflict/AlreadyExists, and everything else. -/
inductive CreateOutcome where
  | created
  | invalid
  | forbidden
  | conflict
  | otherError
deriving DecidableEq, Repr

/-- Outcome of a Pod-delete call (§4.5 Aborted, §7): success, NotFound, and
everything else. -/
inductive DeleteOutcome where
  | ok
  | notFound
  | otherError
deriving DecidableEq, Repr

/-- The observable effects of one sync call: the patched Job CR, whether a
Pod delete was issued (finalizers stripped first), whether finalizers were
stripped without a delete, the Pod create issued (cluster alias and Pod
name), the suggested requeue delay, and whether an error was returned to
the framework. -/
structure SyncResult where
  pj : ProwJob
  deletedPod : Bool := false
  strippedFinalizers : Bool := false
  createdPod : Option (String × String) := none
  requeueAfter : Option Int := none
  requeue : Bool := false
  syncError : Bool := false
deriving DecidableEq, Repr

/-- Set a Job CR complete in a given state: state, completion time now, and
the url re-rendered from the configured template (§4.5, §6). -/
def completeWith (cfg : Config) (now : Int) (state : ProwJobState) (pj : ProwJob) :
    ProwJob :=
  let pj1 : ProwJob := { pj with status := { pj.status with
    state := state
    completionTime := some now } }
  { pj1 with status := { pj1.status with url := cfg.urlTemplate pj1 } }

/-- Modelled from the spec: the Triggered branch of the reconciler (§4.5).
Admission is checked first; a rejected candidate is requeued with no status
change. Otherwise a build id is minted from the tot URL (its response body
is passed in as totResponse), the Pod is created on the target cluster, and
the status is stamped. The three user-fatal creation errors complete the
Job CR as Error without retry; any other creation error is returned to the
framework with the state left at Triggered. -/
def syncTriggeredJob (cfg : Config) (now : Int) (jobs : List ProwJob) (pj : ProwJob)
    (createOutcome : CreateOutcome) (totResponse : String) : SyncResult :=
  if !canExecuteConcurrently cfg jobs pj then
    { pj := pj, requeue := true }
  else
    match createOutcome with
    | .created =>
      let pj1 : ProwJob := { pj with status := { pj.status with
        state := .pending
        pendingTime := some now
        podName := some pj.name
        buildID := totResponse
        description := "Job triggered." } }
      { pj := { pj1 with status := { pj1.status with url := cfg.urlTemplate pj1 } }
        createdPod := some (targetCluster pj, pj.name) }
    | .otherError => { pj := pj, syncError := true }
    | _ =>
      { pj := completeWith cfg now .error pj }

/-- Modelled from the spec: the Pending branch of the reconciler (§4.5),
dispatching on the owning Pod. The Pod is passed in as an Option (none is
NotFound). The grace window for a missing Pod and the short cache-settling
requeue delay are abstract constants of the model; the spec fixes neither. -/
def podMissingGraceWindow : Int := 60

/-- Short requeue delay while waiting for cache consistency on a missing
Pod; an abstract constant of the model. -/
def shortRequeueDelay : Int := 10

/-- Whether any container of the Pod, init containers included, carries
last-termination info (§4.5 Pod terminally Succeeded). -/
def anyLastTermination (p : Pod) : Bool :=
  (p.initContainerStatuses ++ p.containerStatuses).any fun c => c.hasLastTermination

/-- Modelled from the spec: syncPendingJob (§4.5 Pending). -/
def syncPendingJob (cfg : Config) (now : Int) (pj : ProwJob) (pod : Option Pod) :
    SyncResult :=
  match pod with
  | none =>
    if podMissingGraceWindow ≤ now - (pj.status.pendingTime.getD pj.status.startTime) then
      { pj := { pj with status := { pj.status with
          state := .triggered
          podName := none
          podRevivalCount := min (pj.status.podRevivalCount + 1) (effMaxRevivals cfg pj) } } }
    else
      { pj := pj, requeueAfter := some shortRequeueDelay }
  | some p =>
    if p.deletionTimestamp.isSome then
      if p.reason = "NodeLost" then
        { pj := pj, strippedFinalizers := true, requeue := true }
      else
        { pj := completeWith cfg now .error pj, strippedFinalizers := true }
    else
      match p.phase with
      | .podUnknown =>
        { pj := pj, deletedPod := true, strippedFinalizers := true }
      | .podSucceeded =>
        let state : ProwJobState := if anyLastTermination p then .error else .success
        { pj := completeWith cfg now state
            { pj with status := { pj.status with description := "" } } }
      | .podFailed =>
        if p.reason = "Evicted" then
          if pj.spec.errorOnEviction ∨ effMaxRevivals cfg pj ≤ pj.status.podRevivalCount then
            { pj := completeWith cfg now .error pj }
          else
            { pj := { pj with status := { pj.status with
                podRevivalCount := pj.status.podRevivalCount + 1 } }
              deletedPod := true, strippedFinalizers := true }
        else
          { pj := completeWith cfg now .failure pj }
      | .podRunning =>
        let age := now - (p.startTime.getD p.creationTimestamp)
        if effPodRunningTimeout cfg pj ≤ age then
          { pj := completeWith cfg now .aborted pj
            deletedPod := true, strippedFinalizers := true }
        else
          let pj1 : ProwJob := { pj with status := { pj.status with
            pendingTime := some (pj.status.pendingTime.getD now)
            buildID :=
              if pj.status.buildID ≠ "" then pj.status.buildID
              else if p.buildIDLabel.getD "" ≠ "" then p.buildIDLabel.getD ""
              else p.buildIDEnv.getD "" } }
          { pj := { pj1 with status := { pj1.status with url := cfg.urlTemplate pj1 } }
            requeueAfter := some (max 0 (effPodRunningTimeout cfg pj - age)) }
      | .podPending =>
        match p.startTime with
        | none =>
          let age := now - p.creationTimestamp
          if effPodUnscheduledTimeout cfg pj ≤ age then
            { pj := completeWith cfg now .error pj
              deletedPod := true, strippedFinalizers := true }
          else
            { pj := pj
              requeueAfter := some (max 0 (effPodUnscheduledTimeout cfg pj - age)) }
        | some st =>
          let age := now - st
          if effPodPendingTimeout cfg pj ≤ age then
            { pj := completeWith cfg now .error pj
              deletedPod := true, strippedFinalizers := true }
          else
            { pj := pj
              requeueAfter := some (max 0 (effPodPendingTimeout cfg pj - age)) }

/-- Modelled from the spec: the Aborted branch of the reconciler (§4.5).
If an owning Pod exists it is deleted best-effort after a finalizer strip;
NotFound is tolerated, any other delete error is returned to the framework
and the Job CR is not marked complete. Once the Pod is gone (or none
existed) the completion time is set. -/
def syncAbortedJob (now : Int) (pj : ProwJob) (pod : Option Pod)
    (deleteOutcome : DeleteOutcome) : SyncResult :=
  match pod with
  | none =>
    { pj := { pj with status := { pj.status with completionTime := some now } } }
  | some _ =>
    match deleteOutcome with
    | .otherError => { pj := pj, strippedFinalizers := true, syncError := true }
    | .ok =>
      { pj := { pj with status := { pj.status with completionTime := some now } }
        deletedPod := true, strippedFinalizers := true }
    | .notFound =>
      { pj := { pj with status := { pj.status with completionTime := some now } }
        strippedFinalizers := true }

/-- Modelled from the spec: the per-call dispatch of the reconciler (§4.5).
Scheduling is not handled by this core; terminal states only ensure the Pod
has been asked to delete, without rewriting the status. The duplicate
terminator, which patches peer Job CRs rather than the reconciled one, is
modelled separately as terminateDupes. -/
def reconcile (cfg : Config) (now : Int) (jobs : List ProwJob) (pj : ProwJob)
    (pod : Option Pod) (createOutcome : CreateOutcome)
    (deleteOutcome : DeleteOutcome) (totResponse : String) : SyncResult :=
  match pj.status.state with
  | .scheduling => { pj := pj }
  | .triggered => syncTriggeredJob cfg now jobs pj createOutcome totResponse
  | .pending => syncPendingJob cfg now pj pod
  | .aborted => syncAbortedJob now pj pod deleteOutcome
  | _ => { pj := pj, deletedPod := pod.isSome }

/-- Prow's lowercase rendering of a Job CR state, as interpolated by the
test file's URL template. -/
def stateName : ProwJobState → String
  | .scheduling => "scheduling"
  | .triggered => "triggered"
  | .pending => "pending"
  | .success => "success"
  | .failure => "failure"
  | .error => "error"
  | .aborted => "aborted"

/-- An all-defaults ProwJobSpec, used to build concrete fixtures. -/
def baseSpec : ProwJobSpec :=
  { job := "", jobType := .periodic, cluster := "", maxConcurrency := 0
    jobQueueName := "", errorOnEviction := false, pulls := []
    podPendingTimeout := none, podRunningTimeout := none
    podUnscheduledTimeout := none, maxRevivals := none }

/-- An all-defaults ProwJobStatus. -/
def baseStatus : ProwJobStatus :=
  { state := .triggered, podName := none, buildID := "", url := ""
    startTime := 0, pendingTime := none, completionTime := none
    podRevivalCount := 0, description := "" }

/-- An all-defaults Job CR. -/
def baseJob : ProwJob :=
  { name := "", uid := "", creationTimestamp := 0, spec := baseSpec
    status := baseStatus }

/-- An all-defaults Pod. -/
def basePod : Pod :=
  { name := "", creationTimestamp := 0, deletionTimestamp := none
    finalizers := [], phase := .podPending, reason := "", startTime := none
    initContainerStatuses := [], containerStatuses := []
    buildIDLabel := none, buildIDEnv := none }

/-- The test file's configuration (newFakeConfigAgent): pod pending timeout
1 h, running timeout 2 h, unscheduled timeout 5 min (in seconds here),
max-revivals 3, and the URL template name/state. -/
def testConfig : Config :=
  { maxConcurrency := 0
    jobQueueCapacities := fun _ => none
    podPendingTimeout := 3600
    podRunningTimeout := 7200
    podUnscheduledTimeout := 300
    maxRevivals := 3
    urlTemplate := fun pj => pj.name ++ "/" ++ stateName pj.status.state }

/-- A presubmit fixture for the duplicate-terminator scenario of
TestTerminateDupes: job name, CR name, state, start time offset. -/
def dupeFixture (name job : String) (state : ProwJobState) (start : Int)
    (completion : Option Int) : ProwJob :=
  { baseJob with
    name := name
    uid := name
    spec := { baseSpec with job := job, jobType := .presubmit, pulls := [0] }
    status := { baseStatus with
      state := state
      startTime := start
      completionTime := completion } }

/-- The eight Job CRs of the TestTerminateDupes scenario, with now = 0 and
start times in seconds before now. -/
def dupeJobs : List ProwJob :=
  [ dupeFixture "newest" "j1" .pending (-60) none
  , dupeFixture "old" "j1" .triggered (-3600) none
  , dupeFixture "older" "j1" .triggered (-7200) none
  , dupeFixture "complete" "j1" .success (-10800) (some 0)
  , dupeFixture "newest_j2" "j2" .triggered (-60) none
  , dupeFixture "old_j2" "j2" .triggered (-3600) none
  , dupeFixture "old_j3" "j3" .triggered (-3600) none
  , dupeFixture "new_j3" "j3" .triggered (-60) none ]

end Plank

namespace Plank

def pendingJob (job : String) (queue : String) : ProwJob :=
  { baseJob with
    spec := { baseSpec with job := job, jobQueueName := queue }
    status := { baseStatus with state := .pending } }

def candidate (created : Int) (m : Nat) (job : String) (queue : String) : ProwJob :=
  { baseJob with
    uid := "under-test"
    creationTimestamp := created
    spec := { baseSpec with job := job, maxConcurrency := m, jobQueueName := queue }
    status := { baseStatus with state := .triggered } }

def qcfg (cap : Int) : Config :=
  { testConfig with jobQueueCapacities := fun q => if q = "queue" then some cap else none }

def triggeredPeer (created : Int) (job : String) : ProwJob :=
  { baseJob with
    creationTimestamp := created
    spec := { baseSpec with job := job }
    status := { baseStatus with state := .triggered } }

def completedPeer (job : String) : ProwJob :=
  { baseJob with
    spec := { baseSpec with job := job }
    status := { baseStatus with state := .success, completionTime := some 0 } }

/-- A Pending Job CR owning the named Pod, as seeded by TestSyncPendingJob. -/
def pendingPJ (name : String) : ProwJob :=
  { baseJob with
    name := name
    status := { baseStatus with state := .pending, podName := some name } }

/-- A Pod in phase Failed with reason Evicted. -/
def evictedPod (name : String) : Pod :=
  { basePod with name := name, phase := .podFailed, reason := "Evicted" }

/-- A succeeded Pod with last-termination info optionally on an init
container and on a regular container. -/
def succeededPod (withInit withMain : Bool) : Pod :=
  { basePod with
    name := "boop-42"
    phase := .podSucceeded
    initContainerStatuses := if withInit then [{ hasLastTermination := true }] else []
    containerStatuses := if withMain then [{ hasLastTermination := true }] else [] }

/-- The Pod of the "pending, created less than podPendingTimeout ago"
scenario: phase Pending, started 3000 s before now = 0; the test's pending
timeout is 3600 s. -/
def slowpokePod : Pod :=
  { basePod with
    name := "slowpoke"
    phase := .podPending
    creationTimestamp := -3000
    startTime := some (-3000) }

/-- An Aborted Job CR without completion time, as seeded by
TestSyncAbortedJob. -/
def abortedPJ : ProwJob :=
  { baseJob with
    name := "my-pj"
    status := { baseStatus with state := .aborted } }

/-- The subject of the C2 witness: the "old" Job CR of TestTerminateDupes. -/
def subjectOld : ProwJob := dupeFixture "old" "j1" .triggered (-3600) none

/-- The TestMaxConcurrency store "Num pending plus older instances equals
max concurrency": one older Triggered peer and nine Pending peers. -/
def maxConJobs : List ProwJob :=
  triggeredPeer 0 "my-pj" :: List.replicate 9 (pendingJob "my-pj" "")

/-- The timeout category applicable to a Pod in phase Pending: the pending
timeout when the Pod's start time is set, the unscheduled timeout when it
is unset (§4.1, §4.5). -/
def applicableTimeout (cfg : Config) (pj : ProwJob) (p : Pod) : Int :=
  match p.startTime with
  | some _ => effPodPendingTimeout cfg pj
  | none => effPodUnscheduledTimeout cfg pj

/-- The age a Pod in phase Pending is measured by: time since start when
started, time since creation when unscheduled (§4.1). -/
def podAge (now : Int) (p : Pod) : Int :=
  match p.startTime with
  | some st => now - st
  | none => now - p.creationTimestamp

/-- The status invariant of §3 and §8: a Job CR in a terminal state carries
a non-nil completion time, and a Job CR in a non-terminal state has none. -/
def statusInvariant (pj : ProwJob) : Prop :=
  (isTerminal pj.status.state = true → pj.status.completionTime.isSome = true) ∧
  (isTerminal pj.status.state = false → pj.status.completionTime = none)

/-
  Theorems. Each claim Cn has one theorem, with a closed witness when the
  theorem carries hypotheses.
-/

/-- C1: For a Triggered Job CR with per-job MaxConcurrency M, the per-job
admission test passes iff M = 0 (skip) or the number of Pending peers with
the same job name plus the number of older Triggered peers with the same
job name (stable (creation time, uid) tie-break, the candidate itself
excluded by uid) is strictly below M. -/
theorem perJob_admission_iff (jobs : List ProwJob) (pj : ProwJob)
    (hstate : pj.status.state = .triggered) :
    canExecutePerJob jobs pj = true ↔
      (pj.spec.maxConcurrency = 0 ∨
        pendingPeersByJob jobs pj + olderTriggeredPeersByJob jobs pj <
          pj.spec.maxConcurrency) := by
  unfold canExecutePerJob
  split_ifs with h0 hpend
  · simp [h0]
  · simp only [Bool.false_eq_true, false_iff]
    push_neg
    exact ⟨h0, by omega⟩
  · simp only [decide_eq_true_eq]
    constructor
    · exact Or.inr
    · rintro (h | h)
      · exact absurd h h0
      · exact h

/-- Witness for C1 at the TestMaxConcurrency store "Num pending plus older
instances equals max concurrency" (the test expects rejection there: the
count 9 + 1 equals M = 10). -/
theorem perJob_admission_iff_witness :
    (candidate 100 10 "my-pj" "").status.state = .triggered ∧
    (canExecutePerJob maxConJobs (candidate 100 10 "my-pj" "") = true ↔
      ((candidate 100 10 "my-pj" "").spec.maxConcurrency = 0 ∨
        pendingPeersByJob maxConJobs (candidate 100 10 "my-pj" "") +
          olderTriggeredPeersByJob maxConJobs (candidate 100 10 "my-pj" "") <
          (candidate 100 10 "my-pj" "").spec.maxConcurrency)) :=
  ⟨rfl, perJob_admission_iff maxConJobs (candidate 100 10 "my-pj" "") rfl⟩

/-- A value is strictly below a base-seeded fold of max over a list iff
some list element strictly exceeds it. -/
theorem lt_foldr_max_iff (x : Int) (l : List Int) :
    x < l.foldr max x ↔ ∃ y ∈ l, x < y := by
  induction l with
  | nil => simp
  | cons a t ih =>
    simp only [List.foldr_cons, lt_max_iff, ih, List.mem_cons]
    constructor
    · rintro (h | ⟨y, hy, hxy⟩)
      · exact ⟨a, Or.inl rfl, h⟩
      · exact ⟨y, Or.inr hy, hxy⟩
    · rintro ⟨y, (rfl | hy), hxy⟩
      · exact Or.inl hxy
      · exact Or.inr ⟨y, hy, hxy⟩

/-- A participating Job CR is superseded iff its start time is strictly
below the newest start time of its duplicate group. -/
theorem superseded_iff (jobs : List ProwJob) (pj : ProwJob) :
    superseded jobs pj = true ↔
      pj.status.startTime < groupNewestStart jobs pj := by
  unfold superseded groupNewestStart
  rw [lt_foldr_max_iff]
  simp only [List.any_eq_true, Bool.and_eq_true, decide_eq_true_eq, List.mem_map,
    List.mem_filter]
  constructor
  · rintro ⟨j, hj, ⟨⟨hact, hkey⟩, hlt⟩⟩
    exact ⟨j.status.startTime, ⟨j, ⟨hj, hact, hkey⟩, rfl⟩, hlt⟩
  · rintro ⟨y, ⟨j, ⟨hj, hact, hkey⟩, rfl⟩, hlt⟩
    exact ⟨j, hj, ⟨hact, hkey⟩, hlt⟩

/-- An uncompleted Job CR is different from its aborted copy: the abort
stamps a completion time. -/
theorem ne_abortDupe_of_active (now : Int) (j : ProwJob) (hcomp : j.complete = false) :
    j ≠ abortDupe now j := by
  intro heq
  have hnone : j.status.completionTime = none := by
    unfold ProwJob.complete at hcomp
    cases h : j.status.completionTime with
    | none => rfl
    | some t => rw [h] at hcomp; simp at hcomp
  have := congrArg (fun x => x.status.completionTime) heq
  simp [abortDupe, hnone] at this

/-- C2: a duplicate-terminator call on behalf of a presubmit Job CR pj maps
the i-th store entry j as follows: an uncompleted presubmit entry sharing
pj's (job name, pull set) key is driven to Aborted (state Aborted,
completion time now) iff its start time is not the newest of its group,
and is returned unchanged when it holds the newest start time; an entry
with a different key, or an entry that has already completed, is always
returned unchanged. -/
theorem terminateDupes_char (now : Int) (jobs : List ProwJob) (pj : ProwJob)
    (hpj : pj.spec.jobType = .presubmit) (i : Nat) (j : ProwJob)
    (hj : jobs[i]? = some j) :
    ((abortDupe now j).status.state = .aborted ∧
      (abortDupe now j).status.completionTime = some now) ∧
    (dupKey j = dupKey pj → j.spec.jobType = .presubmit → j.complete = false →
      ((terminateDupes now jobs pj)[i]? = some (abortDupe now j) ↔
        j.status.startTime < groupNewestStart jobs j) ∧
      (groupNewestStart jobs j ≤ j.status.startTime →
        (terminateDupes now jobs pj)[i]? = some j)) ∧
    (dupKey j ≠ dupKey pj → (terminateDupes now jobs pj)[i]? = some j) ∧
    (j.complete = true → (terminateDupes now jobs pj)[i]? = some j) := by
  have hmap : (terminateDupes now jobs pj)[i]? = some (terminateStep now jobs pj j) := by
    simp [terminateDupes, List.getElem?_map, hj]
  refine ⟨⟨rfl, rfl⟩, ?_, ?_, ?_⟩
  · intro hkey hty hcomp
    have hstep : terminateStep now jobs pj j =
        if superseded jobs j = true then abortDupe now j else j := by
      unfold terminateStep dupActive
      simp [hkey, hty, hcomp, ProwJob.complete] at *
      simp [hkey, hty, hcomp]
    by_cases hsup : superseded jobs j = true
    · have hlt := (superseded_iff jobs j).mp hsup
      constructor
      · rw [hmap, hstep, if_pos hsup]
        exact iff_of_true rfl hlt
      · intro hle
        exact absurd hlt (by omega)
    · have hnlt : ¬ j.status.startTime < groupNewestStart jobs j := fun h =>
        hsup ((superseded_iff jobs j).mpr h)
      constructor
      · rw [hmap, hstep, if_neg hsup]
        constructor
        · intro h
          have : j = abortDupe now j := Option.some_injective _ h
          exact absurd this (ne_abortDupe_of_active now j hcomp)
        · intro h
          exact absurd h hnlt
      · intro _
        rw [hmap, hstep, if_neg hsup]
  · intro hne
    rw [hmap]
    unfold terminateStep
    simp [hne]
  · intro hc
    rw [hmap]
    unfold terminateStep dupActive
    simp [hc]

/-- Witness for C2 at the TestTerminateDupes scenario: the "old" Job CR of
group j1 does not have the newest start time, so the call on its own
behalf drives it to Aborted. -/
theorem terminateDupes_char_witness :
    (terminateDupes 0 dupeJobs subjectOld)[1]? = some (abortDupe 0 subjectOld) :=
  (((terminateDupes_char 0 dupeJobs subjectOld rfl 1 subjectOld rfl).2.1
    rfl rfl rfl).1).mpr (by decide)

/-- A reconcile of a Pending Job CR is its syncPendingJob call. -/
theorem reconcile_pending (cfg : Config) (now : Int) (jobs : List ProwJob)
    (pj : ProwJob) (pod : Option Pod) (co : CreateOutcome) (d : DeleteOutcome)
    (tot : String) (hstate : pj.status.state = .pending) :
    reconcile cfg now jobs pj pod co d tot = syncPendingJob cfg now pj pod := by
  unfold reconcile
  rw [hstate]

/-- A reconcile of a Triggered Job CR is its syncTriggeredJob call. -/
theorem reconcile_triggered (cfg : Config) (now : Int) (jobs : List ProwJob)
    (pj : ProwJob) (pod : Option Pod) (co : CreateOutcome) (d : DeleteOutcome)
    (tot : String) (hstate : pj.status.state = .triggered) :
    reconcile cfg now jobs pj pod co d tot = syncTriggeredJob cfg now jobs pj co tot := by
  unfold reconcile
  rw [hstate]

/-- A reconcile of an Aborted Job CR is its syncAbortedJob call. -/
theorem reconcile_aborted (cfg : Config) (now : Int) (jobs : List ProwJob)
    (pj : ProwJob) (pod : Option Pod) (co : CreateOutcome) (d : DeleteOutcome)
    (tot : String) (hstate : pj.status.state = .aborted) :
    reconcile cfg now jobs pj pod co d tot = syncAbortedJob now pj pod d := by
  unfold reconcile
  rw [hstate]

/-- C3: a reconcile of a Pending Job CR whose Pod is Failed with reason
Evicted completes the Job CR as Error (completion time now) without
deleting the Pod when error-on-eviction is set or the revival count has
reached the effective max-revivals; otherwise it deletes the Pod with
finalizers stripped first, increments the revival count, and leaves the
Job CR Pending with its completion time untouched. -/
theorem syncPending_evicted (cfg : Config) (now : Int) (jobs : List ProwJob)
    (pj : ProwJob) (p : Pod) (co : CreateOutcome) (d : DeleteOutcome) (tot : String)
    (hstate : pj.status.state = .pending)
    (hphase : p.phase = .podFailed) (hreason : p.reason = "Evicted")
    (hdel : p.deletionTimestamp = none) :
    ((pj.spec.errorOnEviction = true ∨
        effMaxRevivals cfg pj ≤ pj.status.podRevivalCount) →
      (reconcile cfg now jobs pj (some p) co d tot).pj.status.state = .error ∧
      (reconcile cfg now jobs pj (some p) co d tot).pj.status.completionTime =
        some now ∧
      (reconcile cfg now jobs pj (some p) co d tot).deletedPod = false) ∧
    ((pj.spec.errorOnEviction = false ∧
        pj.status.podRevivalCount < effMaxRevivals cfg pj) →
      (reconcile cfg now jobs pj (some p) co d tot).deletedPod = true ∧
      (reconcile cfg now jobs pj (some p) co d tot).strippedFinalizers = true ∧
      (reconcile cfg now jobs pj (some p) co d tot).pj.status.podRevivalCount =
        pj.status.podRevivalCount + 1 ∧
      (reconcile cfg now jobs pj (some p) co d tot).pj.status.state = .pending ∧
      (reconcile cfg now jobs pj (some p) co d tot).pj.status.completionTime =
        pj.status.completionTime) := by
  rw [reconcile_pending cfg now jobs pj (some p) co d tot hstate]
  unfold syncPendingJob
  simp only [hdel, Option.isSome_none, Bool.false_eq_true, if_false, hphase, hreason]
  simp only [reduceIte]
  split_ifs with hcase
  · refine ⟨fun _ => ⟨rfl, rfl, rfl⟩, fun h2 => ?_⟩
    rcases hcase with hb | hle
    · rw [h2.1] at hb
      cases hb
    · exact absurd h2.2 (by omega)
  · refine ⟨fun h1 => ?_, fun _ => ⟨rfl, rfl, rfl, hstate, rfl⟩⟩
    exact absurd h1 hcase

/-- Witness for C3 at the "delete evicted pod" scenario of
TestSyncPendingJob: revival count 0 is below the test max-revivals 3, so
the Pod is deleted and the Job CR stays Pending with revival count 1. -/
theorem syncPending_evicted_witness :
    (reconcile testConfig 0 [] (pendingPJ "boop-42") (some (evictedPod "boop-42"))
        .created .ok "").deletedPod = true ∧
    (reconcile testConfig 0 [] (pendingPJ "boop-42") (some (evictedPod "boop-42"))
        .created .ok "").pj.status.podRevivalCount =
      (pendingPJ "boop-42").status.podRevivalCount + 1 ∧
    (reconcile testConfig 0 [] (pendingPJ "boop-42") (some (evictedPod "boop-42"))
        .created .ok "").pj.status.state = .pending := by
  have h := (syncPending_evicted testConfig 0 [] (pendingPJ "boop-42")
    (evictedPod "boop-42") .created .ok "" rfl rfl rfl rfl).2 ⟨rfl, by decide⟩
  exact ⟨h.1, h.2.2.1, h.2.2.2.1⟩

/-- C4: when Pod creation for an admitted Triggered Job CR fails with 422
Invalid, 403 Forbidden or 409 Conflict/AlreadyExists, the reconcile
completes the Job CR as Error (completion time now) and returns no error;
for any other creation error it returns the error to the framework and
leaves the Job CR unchanged in Triggered state. -/
theorem syncTriggered_createError (cfg : Config) (now : Int) (jobs : List ProwJob)
    (pj : ProwJob) (pod : Option Pod) (co : CreateOutcome) (d : DeleteOutcome)
    (tot : String) (hstate : pj.status.state = .triggered)
    (hcan : canExecuteConcurrently cfg jobs pj = true) :
    ((co = .invalid ∨ co = .forbidden ∨ co = .conflict) →
      (reconcile cfg now jobs pj pod co d tot).pj.status.state = .error ∧
      (reconcile cfg now jobs pj pod co d tot).pj.status.completionTime = some now ∧
      (reconcile cfg now jobs pj pod co d tot).syncError = false) ∧
    (co = .otherError →
      (reconcile cfg now jobs pj pod co d tot).syncError = true ∧
      (reconcile cfg now jobs pj pod co d tot).pj = pj ∧
      (reconcile cfg now jobs pj pod co d tot).pj.status.state = .triggered) := by
  rw [reconcile_triggered cfg now jobs pj pod co d tot hstate]
  unfold syncTriggeredJob
  rw [hcan]
  constructor
  · rintro (rfl | rfl | rfl) <;> exact ⟨rfl, rfl, rfl⟩
  · rintro rfl
    exact ⟨rfl, rfl, hstate⟩

/-- Witness for C4 at the "unprocessable prow job" scenario of
TestSyncTriggeredJobs: a 422 Invalid on Pod create completes the Job CR as
Error without returning an error. -/
theorem syncTriggered_createError_witness :
    (reconcile testConfig 0 [] (candidate 0 0 "boop" "") none .invalid .ok
        "0987654321").pj.status.state = .error ∧
    (reconcile testConfig 0 [] (candidate 0 0 "boop" "") none .invalid .ok
        "0987654321").pj.status.completionTime = some 0 ∧
    (reconcile testConfig 0 [] (candidate 0 0 "boop" "") none .invalid .ok
        "0987654321").syncError = false :=
  (syncTriggered_createError testConfig 0 [] (candidate 0 0 "boop" "") none .invalid
    .ok "0987654321" rfl rfl).1 (Or.inl rfl)

/-- The Triggered Job CR of the TestSyncTriggeredJobs scenario
"start new pod". -/
def triggeredPJ : ProwJob :=
  { baseJob with
    name := "blabla"
    uid := "under-test"
    spec := { baseSpec with job := "boop" }
    status := { baseStatus with state := .triggered } }

/-- C5: a reconcile of an admitted Triggered Job CR whose Pod create
succeeds issues exactly one Pod create, on the target cluster ("default"
when the cluster field is empty) under the Job CR's name, and stamps the
status: state Pending, pending time now, pod name the created Pod's name,
build id the tot response body, and url rendered by the configured
template over the freshly stamped Job CR. -/
theorem syncTriggered_success (cfg : Config) (now : Int) (jobs : List ProwJob)
    (pj : ProwJob) (pod : Option Pod) (d : DeleteOutcome) (tot : String)
    (hstate : pj.status.state = .triggered)
    (hcan : canExecuteConcurrently cfg jobs pj = true) :
    (reconcile cfg now jobs pj pod .created d tot).createdPod =
      some (targetCluster pj, pj.name) ∧
    (pj.spec.cluster = "" → targetCluster pj = "default") ∧
    (reconcile cfg now jobs pj pod .created d tot).pj.status.state = .pending ∧
    (reconcile cfg now jobs pj pod .created d tot).pj.status.pendingTime = some now ∧
    (reconcile cfg now jobs pj pod .created d tot).pj.status.podName = some pj.name ∧
    (reconcile cfg now jobs pj pod .created d tot).pj.status.buildID = tot ∧
    (reconcile cfg now jobs pj pod .created d tot).pj.status.url =
      cfg.urlTemplate { (reconcile cfg now jobs pj pod .created d tot).pj with
        status := { (reconcile cfg now jobs pj pod .created d tot).pj.status with
          url := pj.status.url } } := by
  rw [reconcile_triggered cfg now jobs pj pod .created d tot hstate]
  unfold syncTriggeredJob
  rw [hcan]
  refine ⟨rfl, fun hc => ?_, rfl, rfl, rfl, rfl, rfl⟩
  unfold targetCluster
  rw [hc]
  simp

/-- Witness for C5 at the "start new pod" scenario of
TestSyncTriggeredJobs, with the test's tot body "0987654321" and URL
template name/state. -/
theorem syncTriggered_success_witness :
    (reconcile testConfig 0 [] triggeredPJ none .created .ok
        "0987654321").pj.status.url = "blabla/pending" ∧
    (reconcile testConfig 0 [] triggeredPJ none .created .ok
        "0987654321").createdPod = some (targetCluster triggeredPJ, triggeredPJ.name) ∧
    (reconcile testConfig 0 [] triggeredPJ none .created .ok
        "0987654321").pj.status.state = .pending ∧
    (reconcile testConfig 0 [] triggeredPJ none .created .ok
        "0987654321").pj.status.pendingTime = some 0 ∧
    (reconcile testConfig 0 [] triggeredPJ none .created .ok
        "0987654321").pj.status.podName = some "blabla" ∧
    (reconcile testConfig 0 [] triggeredPJ none .created .ok
        "0987654321").pj.status.buildID = "0987654321" := by
  have h := syncTriggered_success testConfig 0 [] triggeredPJ none .ok "0987654321"
    rfl rfl
  exact ⟨by decide, h.1, h.2.2.1, h.2.2.2.1, h.2.2.2.2.1, h.2.2.2.2.2.1⟩

/-- C6: a reconcile of a Pending Job CR whose Pod has Succeeded completes
the Job CR with completion time now; the state becomes Error when some
container (init containers included) carries last-termination info, and
Success otherwise. -/
theorem syncPending_succeeded (cfg : Config) (now : Int) (jobs : List ProwJob)
    (pj : ProwJob) (p : Pod) (co : CreateOutcome) (d : DeleteOutcome) (tot : String)
    (hstate : pj.status.state = .pending)
    (hphase : p.phase = .podSucceeded) (hdel : p.deletionTimestamp = none) :
    (reconcile cfg now jobs pj (some p) co d tot).pj.status.completionTime =
      some now ∧
    (anyLastTermination p = true →
      (reconcile cfg now jobs pj (some p) co d tot).pj.status.state = .error) ∧
    (anyLastTermination p = false →
      (reconcile cfg now jobs pj (some p) co d tot).pj.status.state = .success) := by
  rw [reconcile_pending cfg now jobs pj (some p) co d tot hstate]
  unfold syncPendingJob
  simp only [hdel, Option.isSome_none, Bool.false_eq_true, if_false, hphase]
  refine ⟨rfl, fun h => ?_, fun h => ?_⟩
  · simp only [h, if_true]
    rfl
  · simp only [h, Bool.false_eq_true, if_false]
    rfl

/-- Witness for C6 at the "succeeded pod" scenario of TestSyncPendingJob:
all container statuses clean, so the Job CR completes as Success. -/
theorem syncPending_succeeded_witness :
    (reconcile testConfig 0 [] (pendingPJ "boop-42") (some (succeededPod false false))
        .created .ok "").pj.status.completionTime = some 0 ∧
    (reconcile testConfig 0 [] (pendingPJ "boop-42") (some (succeededPod false false))
        .created .ok "").pj.status.state = .success := by
  have h := syncPending_succeeded testConfig 0 [] (pendingPJ "boop-42")
    (succeededPod false false) .created .ok "" rfl rfl rfl
  exact ⟨h.1, h.2.2 rfl⟩

/-- C7: a reconcile of an Aborted Job CR whose completion time is unset
returns an error and leaves the completion time unset when the Pod exists
and its delete fails with an error other than NotFound; when the delete
succeeds, fails with NotFound, or no Pod exists, the completion time is
set to now. -/
theorem syncAborted_delete (cfg : Config) (now : Int) (jobs : List ProwJob)
    (pj : ProwJob) (pod : Option Pod) (co : CreateOutcome) (d : DeleteOutcome)
    (tot : String) (hstate : pj.status.state = .aborted)
    (hcomp : pj.status.completionTime = none) :
    (pod ≠ none → d = .otherError →
      (reconcile cfg now jobs pj pod co d tot).syncError = true ∧
      (reconcile cfg now jobs pj pod co d tot).pj.status.completionTime = none) ∧
    (pod = none →
      (reconcile cfg now jobs pj pod co d tot).pj.status.completionTime = some now ∧
      (reconcile cfg now jobs pj pod co d tot).syncError = false) ∧
    ((d = .ok ∨ d = .notFound) →
      (reconcile cfg now jobs pj pod co d tot).pj.status.completionTime = some now ∧
      (reconcile cfg now jobs pj pod co d tot).syncError = false) := by
  rw [reconcile_aborted cfg now jobs pj pod co d tot hstate]
  unfold syncAbortedJob
  cases pod with
  | none =>
    exact ⟨fun hne => absurd rfl hne, fun _ => ⟨rfl, rfl⟩, fun _ => ⟨rfl, rfl⟩⟩
  | some p =>
    refine ⟨fun _ hd => ?_, fun h => Option.noConfusion h, fun hd => ?_⟩
    · subst hd
      exact ⟨rfl, hcomp⟩
    · rcases hd with rfl | rfl <;> exact ⟨rfl, rfl⟩

/-- Witness for C7 at the "Failed delete does not set job to completed"
scenario of TestSyncAbortedJob. -/
theorem syncAborted_delete_witness :
    (reconcile testConfig 0 [] abortedPJ (some basePod) .created .otherError
        "").syncError = true ∧
    (reconcile testConfig 0 [] abortedPJ (some basePod) .created .otherError
        "").pj.status.completionTime = none :=
  (syncAborted_delete testConfig 0 [] abortedPJ (some basePod) .created .otherError
    "" rfl rfl).1 (fun h => Option.noConfusion h) rfl

/-- C8: a reconcile of a Pending Job CR whose Pod is in phase Pending and
within the applicable timeout (pending timeout when the Pod has a start
time, unscheduled timeout when it has none) leaves the Job CR unchanged
and requeues after the applicable deadline minus the Pod's age. -/
theorem syncPending_fresh (cfg : Config) (now : Int) (jobs : List ProwJob)
    (pj : ProwJob) (p : Pod) (co : CreateOutcome) (d : DeleteOutcome) (tot : String)
    (hstate : pj.status.state = .pending)
    (hphase : p.phase = .podPending) (hdel : p.deletionTimestamp = none)
    (hfresh : podAge now p < applicableTimeout cfg pj p) :
    (reconcile cfg now jobs pj (some p) co d tot).pj = pj ∧
    (reconcile cfg now jobs pj (some p) co d tot).requeueAfter =
      some (applicableTimeout cfg pj p - podAge now p) := by
  rw [reconcile_pending cfg now jobs pj (some p) co d tot hstate]
  cases hst : p.startTime with
  | none =>
    simp only [applicableTimeout, podAge, hst] at hfresh
    unfold syncPendingJob
    simp only [hdel, Option.isSome_none, Bool.false_eq_true, if_false, hphase, hst,
      applicableTimeout, podAge]
    rw [if_neg (by omega)]
    exact ⟨rfl, by rw [max_eq_right (by omega)]⟩
  | some st =>
    simp only [applicableTimeout, podAge, hst] at hfresh
    unfold syncPendingJob
    simp only [hdel, Option.isSome_none, Bool.false_eq_true, if_false, hphase, hst,
      applicableTimeout, podAge]
    rw [if_neg (by omega)]
    exact ⟨rfl, by rw [max_eq_right (by omega)]⟩

/-- Witness for C8 at the "pending, created less than podPendingTimeout
ago" scenario of TestSyncPendingJob: the Pod started 3000 s ago against a
3600 s pending timeout, so the reconcile requeues after 600 s. -/
theorem syncPending_fresh_witness :
    (reconcile testConfig 0 [] (pendingPJ "slowpoke") (some slowpokePod)
        .created .ok "").pj = pendingPJ "slowpoke" ∧
    (reconcile testConfig 0 [] (pendingPJ "slowpoke") (some slowpokePod)
        .created .ok "").requeueAfter = some 600 := by
  have h := syncPending_fresh testConfig 0 [] (pendingPJ "slowpoke") slowpokePod
    .created .ok "" rfl rfl rfl (by decide)
  exact ⟨h.1, h.2.trans (by decide)⟩

/-- C10: a reconcile of a Pending Job CR whose Pod Succeeded with clean
regular container statuses but last-termination info on an init container
completes the Job CR as Error: init-container statuses are inspected in
addition to regular ones. -/
theorem syncPending_succeeded_initContainers (cfg : Config) (now : Int)
    (jobs : List ProwJob) (pj : ProwJob) (p : Pod) (co : CreateOutcome)
    (d : DeleteOutcome) (tot : String)
    (hstate : pj.status.state = .pending)
    (hphase : p.phase = .podSucceeded) (hdel : p.deletionTimestamp = none)
    (hclean : (p.containerStatuses.any fun c => c.hasLastTermination) = false)
    (hinit : (p.initContainerStatuses.any fun c => c.hasLastTermination) = true) :
    (reconcile cfg now jobs pj (some p) co d tot).pj.status.state = .error ∧
    (reconcile cfg now jobs pj (some p) co d tot).pj.status.completionTime =
      some now := by
  have hterm : anyLastTermination p = true := by
    unfold anyLastTermination
    rw [List.any_append, hinit]
    simp
  rw [reconcile_pending cfg now jobs pj (some p) co d tot hstate]
  unfold syncPendingJob
  simp only [hdel, Option.isSome_none, Bool.false_eq_true, if_false, hphase, hterm,
    if_true]
  exact ⟨rfl, rfl⟩

/-- Completing a Job CR in a terminal state always satisfies the status
invariant: the completion time is stamped together with the state. -/
theorem statusInvariant_completeWith (cfg : Config) (now : Int) (s : ProwJobState)
    (pj : ProwJob) (hs : isTerminal s = true) :
    statusInvariant (completeWith cfg now s pj) := by
  constructor
  · intro _
    rfl
  · intro h'
    have he : (completeWith cfg now s pj).status.state = s := rfl
    rw [he, hs] at h'
    cases h'

/-- A Job CR in a non-terminal state with no completion time satisfies the
status invariant. -/
theorem statusInvariant_mk (pj : ProwJob)
    (hstate : isTerminal pj.status.state = false)
    (hcomp : pj.status.completionTime = none) : statusInvariant pj :=
  ⟨fun h' => Bool.noConfusion (hstate.symm.trans h'), fun _ => hcomp⟩

/-- The status invariant transfers along equal state and completion time. -/
theorem statusInvariant_keepState (pj q : ProwJob)
    (hstate : q.status.state = pj.status.state)
    (hcomp : q.status.completionTime = pj.status.completionTime)
    (h : statusInvariant pj) : statusInvariant q := by
  constructor
  · intro h'
    rw [hstate] at h'
    rw [hcomp]
    exact h.1 h'
  · intro h'
    rw [hstate] at h'
    rw [hcomp]
    exact h.2 h'

/-- The Triggered branch preserves the status invariant. -/
theorem statusInvariant_syncTriggeredJob (cfg : Config) (now : Int)
    (jobs : List ProwJob) (pj : ProwJob) (co : CreateOutcome) (tot : String)
    (h : statusInvariant pj) (hstate : pj.status.state = .triggered) :
    statusInvariant (syncTriggeredJob cfg now jobs pj co tot).pj := by
  have hnone : pj.status.completionTime = none := h.2 (by rw [hstate]; rfl)
  unfold syncTriggeredJob
  split_ifs with hadm
  · exact h
  · cases co with
    | created => exact statusInvariant_mk _ rfl hnone
    | invalid => exact statusInvariant_completeWith cfg now .error pj rfl
    | forbidden => exact statusInvariant_completeWith cfg now .error pj rfl
    | conflict => exact statusInvariant_completeWith cfg now .error pj rfl
    | otherError => exact h

/-- The Pending branch preserves the status invariant. -/
theorem statusInvariant_syncPendingJob (cfg : Config) (now : Int) (pj : ProwJob)
    (pod : Option Pod) (h : statusInvariant pj)
    (hstate : pj.status.state = .pending) :
    statusInvariant (syncPendingJob cfg now pj pod).pj := by
  have hnone : pj.status.completionTime = none := h.2 (by rw [hstate]; rfl)
  cases pod with
  | none =>
    simp only [syncPendingJob]
    split_ifs with hg
    · exact statusInvariant_mk _ rfl hnone
    · exact h
  | some p =>
    simp only [syncPendingJob]
    by_cases hdel : p.deletionTimestamp.isSome = true
    · rw [if_pos hdel]
      by_cases hnl : p.reason = "NodeLost"
      · rw [if_pos hnl]
        exact h
      · rw [if_neg hnl]
        exact statusInvariant_completeWith cfg now .error pj rfl
    · rw [if_neg hdel]
      cases hphase : p.phase with
      | podUnknown => exact h
      | podSucceeded =>
        exact statusInvariant_completeWith cfg now _ _
          (by cases anyLastTermination p <;> rfl)
      | podFailed =>
        simp only []
        by_cases hev : p.reason = "Evicted"
        · rw [if_pos hev]
          split_ifs with hc
          · exact statusInvariant_completeWith cfg now .error pj rfl
          · exact statusInvariant_keepState pj _ rfl rfl h
        · rw [if_neg hev]
          exact statusInvariant_completeWith cfg now .failure pj rfl
      | podRunning =>
        simp only []
        split_ifs with ht h1 h2
        · exact statusInvariant_completeWith cfg now .aborted pj rfl
        all_goals exact statusInvariant_keepState pj _ rfl rfl h
      | podPending =>
        simp only []
        cases hst : p.startTime with
        | none =>
          simp only []
          split_ifs with ht
          · exact statusInvariant_completeWith cfg now .error pj rfl
          · exact h
        | some st =>
          simp only []
          split_ifs with ht
          · exact statusInvariant_completeWith cfg now .error pj rfl
          · exact h

/-- The Aborted branch preserves the status invariant. -/
theorem statusInvariant_syncAbortedJob (now : Int) (pj : ProwJob) (pod : Option Pod)
    (d : DeleteOutcome) (h : statusInvariant pj)
    (hstate : pj.status.state = .aborted) :
    statusInvariant (syncAbortedJob now pj pod d).pj := by
  cases pod with
  | none =>
    simp only [syncAbortedJob]
    exact ⟨fun _ => rfl, fun h' => Bool.noConfusion ((hstate ▸ h' : isTerminal .aborted = false))⟩
  | some p =>
    simp only [syncAbortedJob]
    cases d with
    | otherError => exact h
    | ok =>
      exact ⟨fun _ => rfl, fun h' => Bool.noConfusion ((hstate ▸ h' : isTerminal .aborted = false))⟩
    | notFound =>
      exact ⟨fun _ => rfl, fun h' => Bool.noConfusion ((hstate ▸ h' : isTerminal .aborted = false))⟩

/-- One duplicate-terminator step preserves the status invariant: an
aborted duplicate is stamped with its completion time. -/
theorem statusInvariant_terminateStep (now : Int) (jobs : List ProwJob)
    (pj : ProwJob) (j : ProwJob) (h : statusInvariant j) :
    statusInvariant (terminateStep now jobs pj j) := by
  unfold terminateStep
  split_ifs with hc
  · refine ⟨fun _ => rfl, fun h' => ?_⟩
    have he : (abortDupe now j).status.state = .aborted := rfl
    rw [he] at h'
    cases h'
  · exact h

/-- C9: every reconcile operation, and the duplicate terminator, preserves
the invariant that a Job CR in a terminal state (Success, Failure, Error,
Aborted) carries a non-nil completion time and a Job CR in a non-terminal
state carries none. -/
theorem reconcile_preserves_statusInvariant (cfg : Config) (now : Int)
    (jobs : List ProwJob) (pj : ProwJob) (pod : Option Pod) (co : CreateOutcome)
    (d : DeleteOutcome) (tot : String) (h : statusInvariant pj) :
    statusInvariant (reconcile cfg now jobs pj pod co d tot).pj ∧
    ((∀ j ∈ jobs, statusInvariant j) →
      ∀ j ∈ terminateDupes now jobs pj, statusInvariant j) := by
  constructor
  · cases hstate : pj.status.state with
    | scheduling =>
      unfold reconcile
      rw [hstate]
      exact h
    | triggered =>
      rw [reconcile_triggered cfg now jobs pj pod co d tot hstate]
      exact statusInvariant_syncTriggeredJob cfg now jobs pj co tot h hstate
    | pending =>
      rw [reconcile_pending cfg now jobs pj pod co d tot hstate]
      exact statusInvariant_syncPendingJob cfg now pj pod h hstate
    | aborted =>
      rw [reconcile_aborted cfg now jobs pj pod co d tot hstate]
      exact statusInvariant_syncAbortedJob now pj pod d h hstate
    | success =>
      unfold reconcile
      rw [hstate]
      exact h
    | failure =>
      unfold reconcile
      rw [hstate]
      exact h
    | error =>
      unfold reconcile
      rw [hstate]
      exact h
  · intro hall j' hj'
    unfold terminateDupes at hj'
    rcases List.mem_map.mp hj' with ⟨j, hj, rfl⟩
    exact statusInvariant_terminateStep now jobs pj j (hall j hj)

/-- Witness for C9 at a Pending Job CR with an evicted Pod over the
TestTerminateDupes store. -/
theorem reconcile_preserves_statusInvariant_witness :
    statusInvariant (reconcile testConfig 0 dupeJobs (pendingPJ "boop-42")
      (some (evictedPod "boop-42")) .created .ok "").pj ∧
    (∀ j ∈ terminateDupes 0 dupeJobs (pendingPJ "boop-42"), statusInvariant j) := by
  have h := reconcile_preserves_statusInvariant testConfig 0 dupeJobs
    (pendingPJ "boop-42") (some (evictedPod "boop-42")) .created .ok ""
    (by unfold statusInvariant; decide)
  exact ⟨h.1, h.2 (by intro j hj; unfold statusInvariant; revert j hj; decide)⟩

/-- Witness for C10 at the "succeeded pod with unfinished initcontainers"
scenario of TestSyncPendingJob. -/
theorem syncPending_succeeded_initContainers_witness :
    (reconcile testConfig 0 [] (pendingPJ "boop-42") (some (succeededPod true false))
        .created .ok "").pj.status.state = .error ∧
    (reconcile testConfig 0 [] (pendingPJ "boop-42") (some (succeededPod true false))
        .created .ok "").pj.status.completionTime = some 0 :=
  syncPending_succeeded_initContainers testConfig 0 [] (pendingPJ "boop-42")
    (succeededPod true false) .created .ok "" rfl rfl rfl rfl rfl
